import Mathlib

/-!
# Multiaxis Protection Module — verification of the gating state machine

Shallow embedding of the content-gating widget found in this repository.
The repository carries three variants of the same module:

* `src/protection.js` (embedded below in namespace `ProtectionJs`): the
  2025 variant with inline-markup handlers on the safe-harbor modal;
* the second file of `src/unnamed/part_000` (namespace `Part000`): the
  2025 variant with `addEventListener`-based safe-harbor handlers and a
  three-way `checkExistingAccess`;
* `src/unnamed/part_001`: the 2024 variant without the safe-harbor step
  (its `checkAccess` and `reset` coincide with the others, so it needs no
  separate embedding for the claims below).

The DOM is modelled by the observable bits the module reads and writes:
the challenge input value, the visibility of the error text, the
hidden-class of the two overlays, the checkbox/disabled pair of the
safe-harbor modal, and the `authorized` class of the protected region.
A missing element is `none`; dereferencing a property of a missing
element is a thrown `TypeError`, surfaced through `Except`.  Styling,
focus, animation and listener registration have no further observable
effect on the state the claims quantify over and are not modelled.
-/

namespace MultiaxisProtection

/-! ## JavaScript string primitives (ASCII fragment used by the module) -/

/-- The whitespace characters recognised by the embedding; covers the
forms `\s` can meet in the ASCII inputs the module compares. -/
def isJsSpace (c : Char) : Bool :=
  c = ' ' || c = '\t' || c = '\n' || c = '\r'

/-- `String.prototype.toUpperCase` on the ASCII fragment. -/
def jsToUpper (s : String) : String :=
  String.mk (s.data.map Char.toUpper)

/-- `String.prototype.trim`: drop leading and trailing whitespace. -/
def jsTrim (s : String) : String :=
  String.mk (((s.data.dropWhile isJsSpace).reverse.dropWhile isJsSpace).reverse)

/-- `answer.replace(/\s+/g, '')`: deleting every maximal whitespace run
deletes exactly the whitespace characters. -/
def stripWs (s : String) : String :=
  String.mk (s.data.filter (fun c => !isJsSpace c))

/-- The candidate normalisation performed by `checkAccess`:
`input.value.trim().toUpperCase()`. -/
def normalizeAnswer (s : String) : String :=
  jsToUpper (jsTrim s)

/-! ## Session storage -/

/-- `sessionStorage`, as an association list of string keys and values. -/
abbrev Storage := List (String × String)

def lookupKey {α : Type} : List (String × α) → String → Option α
  | [], _ => none
  | (k, v) :: rest, key => if k = key then some v else lookupKey rest key

def removeKey {α : Type} : List (String × α) → String → List (String × α)
  | [], _ => []
  | (k, v) :: rest, key =>
      if k = key then removeKey rest key else (k, v) :: removeKey rest key

/-- `sessionStorage.getItem` -/
def Storage.getItem (s : Storage) (k : String) : Option String := lookupKey s k

/-- `sessionStorage.setItem` (replaces any previous binding). -/
def Storage.setItem (s : Storage) (k v : String) : Storage :=
  (k, v) :: removeKey s k

/-- `sessionStorage.removeItem` -/
def Storage.removeItem (s : Storage) (k : String) : Storage := removeKey s k

/-! ## JavaScript values and objects (for the configuration resolver) -/

inductive JSValue where
  | vUndefined
  | vNull
  | vBool (b : Bool)
  | vNum (n : Int)
  | vStr (s : String)
  /-- an array of strings (the only array shape the configuration holds) -/
  | vArr (l : List String)
deriving DecidableEq, Repr

/-- JavaScript truthiness of a value (arrays are objects, hence truthy). -/
def jsTruthy : JSValue → Bool
  | .vUndefined => false
  | .vNull => false
  | .vBool b => b
  | .vNum n => n != 0
  | .vStr s => s != ""
  | .vArr _ => true

/-- The JavaScript `a || b` operator (value-returning, by truthiness). -/
def jsOr (a b : JSValue) : JSValue := if jsTruthy a then a else b

/-- A JavaScript object, as an association list in which the first
binding for a key wins. -/
abbrev JSObject := List (String × JSValue)

def JSObject.getProp (o : JSObject) (k : String) : Option JSValue := lookupKey o k

/-- Object spread `{ ...base, ...over }`: bindings of `over` shadow
those of `base` (property enumeration order is abstracted away). -/
def JSObject.spreadOver (base over : JSObject) : JSObject := over ++ base

/-! ## Configuration

The fields of the configuration record consulted by the gate logic;
free-text fields that are only interpolated into markup are carried by
the `JSObject` model of the resolver instead.  Callback fields are
modelled by their presence (`config.onX && typeof config.onX ===
'function'`); invocations are recorded as events. -/

structure Config where
  acceptedAnswers : List String
  enableSafeHarbor : Bool
  sessionKey : String
  safeHarborKey : Option String
  hasBeforeCheck : Bool
  hasOnSuccess : Bool
  hasOnError : Bool
  hasOnSafeHarborAccept : Bool
  hasOnSafeHarborDecline : Bool
deriving DecidableEq, Repr

/-- `config.safeHarborKey || config.sessionKey + '_safeharbor'` (an
empty string is falsy, so it also falls back to the derived key). -/
def effectiveSafeHarborKey (cfg : Config) : String :=
  match cfg.safeHarborKey with
  | some k => if k = "" then cfg.sessionKey ++ "_safeharbor" else k
  | none => cfg.sessionKey ++ "_safeharbor"

/-! ## DOM model -/

/-- The safe-harbor modal with its acknowledgment checkbox and accept
button: `hidden` is the `hidden` class on the modal root,
`checkboxChecked` the checkbox state, `acceptDisabled` the `disabled`
property of the accept button. -/
structure SafeHarborEl where
  hidden : Bool
  checkboxChecked : Bool
  acceptDisabled : Bool
deriving DecidableEq, Repr

/-- The elements the module reads or writes, looked up by id; `none`
models an element that is absent from the document. -/
structure Dom where
  /-- value of the `protectionInput` text input -/
  input : Option String
  /-- whether `protectionError` is displayed (`display: block`) -/
  errorVisible : Option Bool
  /-- whether the challenge modal (`config.modalId`) has the `hidden` class -/
  challengeHidden : Option Bool
  /-- the `safeHarborModal` element -/
  safeHarbor : Option SafeHarborEl
  /-- whether the protected region has the `authorized` class -/
  contentAuthorized : Option Bool
deriving DecidableEq, Repr

/-- Observable side effects: callback invocations and console output. -/
inductive Event where
  | beforeCheck (s : String)
  | onSuccess
  | onError (s : String)
  | onSafeHarborAccept
  | onSafeHarborDecline
  | consoleError (s : String)
deriving DecidableEq, Repr

structure World where
  dom : Dom
  storage : Storage
  events : List Event
deriving DecidableEq, Repr

/-- An exception escaping to the caller (dereferencing a property of a
`getElementById` result that is `null`). -/
inductive JsErr where
  | typeError
deriving DecidableEq, Repr

/-- `showProtectedContent`: add the `authorized` class if the protected
region exists (guarded by `if (protectedContent)` in every variant). -/
def showProtectedContent (d : Dom) : Dom :=
  { d with contentAuthorized := d.contentAuthorized.map (fun _ => true) }

namespace ProtectionJs

/-- `showSafeHarborModal` of `src/protection.js`: if the modal is
missing, log and return; otherwise unhide it, uncheck the checkbox and
disable the accept button. -/
def showSafeHarborModal (w : World) : World :=
  match w.dom.safeHarbor with
  | none => { w with events := w.events ++ [Event.consoleError "Safe Harbor modal not found"] }
  | some _ =>
      { w with dom := { w.dom with
          safeHarbor := some { hidden := false, checkboxChecked := false, acceptDisabled := true } } }

end ProtectionJs

namespace Part000

/-- `showSafeHarborModal` of the `part_000` variant: if the modal is
missing, log and return; otherwise unhide it.  The handler re-binding
through `cloneNode` preserves the checkbox and button state and only
swaps listeners, so no further state changes. -/
def showSafeHarborModal (w : World) : World :=
  match w.dom.safeHarbor with
  | none => { w with events := w.events ++ [Event.consoleError "Safe Harbor modal not found"] }
  | some sh =>
      { w with dom := { w.dom with safeHarbor := some { sh with hidden := false } } }

end Part000

/-- `checkAccess`, common to `src/protection.js` and `part_000` up to
which `showSafeHarborModal` runs on a correct answer (`part_001` is the
special case `enableSafeHarbor = false`).  Unguarded dereferences of
`protectionInput`, the challenge modal and `protectionError` throw. -/
def checkAccessCore (shShow : World → World) (cfg : Config) (w : World) :
    Except JsErr World :=
  match w.dom.input with
  | none => .error .typeError
  | some inputVal =>
    let userAnswer := jsToUpper (jsTrim inputVal)
    let evs0 := w.events ++ (if cfg.hasBeforeCheck then [Event.beforeCheck userAnswer] else [])
    if cfg.acceptedAnswers.any (fun answer =>
        userAnswer == jsToUpper answer || userAnswer == jsToUpper (stripWs answer)) then
      match w.dom.challengeHidden with
      | none => .error .typeError
      | some _ =>
        -- `errorMsg` was looked up before any mutation, and the modal
        -- operations between the `classList` call and the
        -- `errorMsg.style.display` dereference never touch it, so the
        -- dereference is checked against the field of `w`.
        match w.dom.errorVisible with
        | none => .error .typeError
        | some _ =>
          let w2 : World := { w with dom := { w.dom with challengeHidden := some true }, events := evs0 }
          let w3 := if cfg.enableSafeHarbor then shShow w2
                    else { w2 with dom := showProtectedContent w2.dom }
          let w4 : World := { w3 with
            dom := { w3.dom with input := some "", errorVisible := some false },
            storage := w3.storage.setItem cfg.sessionKey "granted" }
          .ok (if cfg.hasOnSuccess then { w4 with events := w4.events ++ [Event.onSuccess] } else w4)
    else
      match w.dom.errorVisible with
      | none => .error .typeError
      | some _ =>
        .ok { w with
          dom := { w.dom with errorVisible := some true, input := some "" },
          events := evs0 ++ (if cfg.hasOnError then [Event.onError userAnswer] else []) }

/-- `checkAccess` of `src/protection.js`. -/
def ProtectionJs.checkAccess (cfg : Config) (w : World) : Except JsErr World :=
  checkAccessCore ProtectionJs.showSafeHarborModal cfg w

/-- `checkAccess` of the `part_000` variant. -/
def Part000.checkAccess (cfg : Config) (w : World) : Except JsErr World :=
  checkAccessCore Part000.showSafeHarborModal cfg w

/-! ## Setup / initial resolution -/

namespace ProtectionJs

/-- The document right after `setup` of `src/protection.js` appended the
overlays: the challenge modal is visible, the safe-harbor modal (when
enabled) was created and immediately given the `hidden` class, with the
checkbox unchecked and the accept button carrying the `disabled`
attribute from its markup. -/
def initialDom (cfg : Config) (contentPresent : Bool) : Dom :=
  { input := some ""
    errorVisible := some false
    challengeHidden := some false
    safeHarbor := if cfg.enableSafeHarbor then
        some { hidden := true, checkboxChecked := false, acceptDisabled := true }
      else none
    contentAuthorized := if contentPresent then some false else none }

/-- The remainder of `setup` in `src/protection.js`: read both flags; on
complete access hide both overlays and reveal the content; otherwise
remove both session keys ("clear any partial progress and start
fresh"), keep the safe-harbor modal hidden and show the challenge. -/
def setup (cfg : Config) (storage : Storage) (contentPresent : Bool) : World :=
  let d := initialDom cfg contentPresent
  let shKey := effectiveSafeHarborKey cfg
  if storage.getItem cfg.sessionKey = some "granted" ∧
      (cfg.enableSafeHarbor = false ∨ storage.getItem shKey = some "accepted") then
    let d := { d with challengeHidden := some true,
                      safeHarbor := d.safeHarbor.map (fun sh => { sh with hidden := true }) }
    { dom := showProtectedContent d, storage := storage, events := [] }
  else
    let storage := (storage.removeItem cfg.sessionKey).removeItem shKey
    let d := { d with safeHarbor := d.safeHarbor.map (fun sh => { sh with hidden := true }),
                      challengeHidden := some false }
    { dom := d, storage := storage, events := [] }

end ProtectionJs

namespace Part000

/-- The document right after `setup` of `part_000` appended the
overlays: unlike `protection.js`, the safe-harbor modal is created
WITHOUT the `hidden` class. -/
def initialDom (cfg : Config) (contentPresent : Bool) : Dom :=
  { input := some ""
    errorVisible := some false
    challengeHidden := some false
    safeHarbor := if cfg.enableSafeHarbor then
        some { hidden := false, checkboxChecked := false, acceptDisabled := true }
      else none
    contentAuthorized := if contentPresent then some false else none }

/-- `checkExistingAccess` of `part_000`: full access hides both
overlays and reveals the content; access granted with the safe-harbor
step outstanding hides only the challenge and shows the safe-harbor
modal; otherwise nothing changes.  Returns the boolean the caller uses
to decide whether to wire the challenge listeners. -/
def checkExistingAccess (cfg : Config) (w : World) : World × Bool :=
  let shKey := effectiveSafeHarborKey cfg
  let hasProtectionAccess := w.storage.getItem cfg.sessionKey = some "granted"
  let hasSafeHarborAccess := cfg.enableSafeHarbor = false ∨ w.storage.getItem shKey = some "accepted"
  if hasProtectionAccess ∧ hasSafeHarborAccess then
    ({ w with dom := showProtectedContent { w.dom with
        challengeHidden := w.dom.challengeHidden.map (fun _ => true),
        safeHarbor := w.dom.safeHarbor.map (fun sh => { sh with hidden := true }) } }, true)
  else if hasProtectionAccess ∧ cfg.enableSafeHarbor = true ∧ ¬ hasSafeHarborAccess then
    (showSafeHarborModal { w with
        dom := { w.dom with challengeHidden := w.dom.challengeHidden.map (fun _ => true) } }, false)
  else
    (w, false)

/-- `setup` of `part_000`: append the overlays, then resolve through
`checkExistingAccess` (listener wiring has no further state effect). -/
def setup (cfg : Config) (storage : Storage) (contentPresent : Bool) : World :=
  (checkExistingAccess cfg
    { dom := initialDom cfg contentPresent, storage := storage, events := [] }).1

end Part000

/-! ## Safe-harbor interactions and reset -/

/-- A user interaction with the safe-harbor modal. -/
inductive UIOp where
  | setCheckbox (b : Bool)
  | clickAccept
  | showModal
deriving DecidableEq, Repr

namespace ProtectionJs

/-- The inline handlers of `src/protection.js` (`createSafeHarborModal`
markup): the checkbox `onchange` sets `accept.disabled = !checked`; the
accept `onclick` (never delivered while the button is disabled)
re-checks the checkbox, hides the modal, then dereferences the
HARD-CODED `document.getElementById('protectedContent')` WITHOUT a
guard — with no such element in the document a TypeError is thrown
BEFORE `sessionStorage.setItem` runs — and only then stores
`accepted`.  It invokes NO callback.  (The protected region of the
model stands for the element this hard-coded lookup targets; a world
with `contentAuthorized = none` is a page without it, e.g. one whose
region carries a custom `protectedContentId`.) -/
def stepUI (cfg : Config) (w : World) : UIOp → Except JsErr World
  | .setCheckbox b =>
      match w.dom.safeHarbor with
      | none => .ok w
      | some sh => .ok { w with dom := { w.dom with
          safeHarbor := some { sh with checkboxChecked := b, acceptDisabled := !b } } }
  | .clickAccept =>
      match w.dom.safeHarbor with
      | none => .ok w
      | some sh =>
          if sh.acceptDisabled then .ok w
          else if sh.checkboxChecked then
            match w.dom.contentAuthorized with
            | none => .error .typeError
            | some _ =>
              .ok { w with
                dom := { w.dom with
                  safeHarbor := some { sh with hidden := true },
                  contentAuthorized := some true },
                storage := w.storage.setItem (effectiveSafeHarborKey cfg) "accepted" }
          else .ok w
  | .showModal => .ok (showSafeHarborModal w)

/-- A sequence of interactions with the `src/protection.js` modal; the
first thrown TypeError aborts the sequence. -/
def runUI (cfg : Config) (w : World) : List UIOp → Except JsErr World
  | [] => .ok w
  | op :: rest =>
      match stepUI cfg w op with
      | .error e => .error e
      | .ok w2 => runUI cfg w2 rest

/-- The inline decline handler of `src/protection.js`:
`sessionStorage.clear(); window.location.href = '/'` — it empties the
whole session storage, invokes no callback, and navigates away. -/
def declineSafeHarbor (w : World) : World := { w with storage := [] }

/-- The public `reset` (identical in all three variants): remove the
primary session key, then `location.reload()`. -/
def reset (cfg : Config) (storage : Storage) : Storage :=
  storage.removeItem cfg.sessionKey

end ProtectionJs

namespace Part000

/-- The listeners attached by `showSafeHarborModal` of `part_000`: the
checkbox `change` listener sets `accept.disabled = !checked`; the
accept `click` listener (never delivered while disabled) re-checks the
checkbox, hides the modal, authorizes the content through the GUARDED
`showProtectedContent` (so a missing region is skipped, never thrown
on), stores `accepted` and invokes the accept callback when
configured. -/
def stepUI (cfg : Config) (w : World) : UIOp → World
  | .setCheckbox b =>
      match w.dom.safeHarbor with
      | none => w
      | some sh => { w with dom := { w.dom with
          safeHarbor := some { sh with checkboxChecked := b, acceptDisabled := !b } } }
  | .clickAccept =>
      match w.dom.safeHarbor with
      | none => w
      | some sh =>
          if sh.acceptDisabled then w
          else if sh.checkboxChecked then
            let w2 : World := { w with
              dom := { w.dom with
                safeHarbor := some { sh with hidden := true },
                contentAuthorized := w.dom.contentAuthorized.map (fun _ => true) },
              storage := w.storage.setItem (effectiveSafeHarborKey cfg) "accepted" }
            if cfg.hasOnSafeHarborAccept then
              { w2 with events := w2.events ++ [Event.onSafeHarborAccept] }
            else w2
          else w
  | .showModal => showSafeHarborModal w

/-- The decline listener of `part_000`: remove the primary key and the
safe-harbor key, invoke the decline callback when configured, then
`location.reload()` (re-entry is `setup` on the resulting storage). -/
def declineSafeHarbor (cfg : Config) (w : World) : World :=
  let st := (w.storage.removeItem cfg.sessionKey).removeItem (effectiveSafeHarborKey cfg)
  { w with storage := st,
           events := w.events ++
             (if cfg.hasOnSafeHarborDecline then [Event.onSafeHarborDecline] else []) }

end Part000

/-! ## Configuration resolver and safe-harbor expiration date -/

namespace ProtectionJs

/-- The `defaults` record of `src/protection.js`, transcribed field by
field. -/
def defaults : JSObject :=
  [ ("protectedContentId", .vStr "protectedContent"),
    ("modalId", .vStr "protectionModal"),
    ("title", .vStr "Protected Content"),
    ("notice", .vStr "This verification helps protect our resources from automated AI scrapers and malware while keeping them accessible to legitimate users."),
    ("instruction", .vStr "Please complete this simple verification to access this content:"),
    ("challengeCompany", .vStr "MULTIAXIS"),
    ("hint", .vStr "Eight letters, starts with 'M'"),
    ("errorMessage", .vStr "Please type: MULTIAXIS (not case sensitive)"),
    ("footerText", .vStr "This human verification helps us maintain content quality and security."),
    ("acceptedAnswers", .vArr ["MULTIAXIS", "MULTIAXIS LLC", "MULTIAXIS AI"]),
    ("enableSafeHarbor", .vBool true),
    ("safeHarborTitle", .vStr "Important Legal Notice"),
    ("safeHarborDate", .vNull),
    ("safeHarborDaysValid", .vNum 30),
    ("safeHarborText", .vNull),
    ("sessionKey", .vStr "multiaxis_protection"),
    ("safeHarborKey", .vNull),
    ("useDefaultStyles", .vBool true),
    ("customStyles", .vNull),
    ("onSuccess", .vNull),
    ("onError", .vNull),
    ("beforeCheck", .vNull),
    ("onSafeHarborAccept", .vNull),
    ("onSafeHarborDecline", .vNull) ]

/-- `init`'s configuration merge: `config = { ...defaults, ...userConfig }`
(the subsequent DOM-readiness wait does not touch the record). -/
def init (userConfig : JSObject) : JSObject :=
  JSObject.spreadOver defaults userConfig

/-- `getSafeHarborExpirationDate` of `src/protection.js` computes
`baseDate` shifted by `config.safeHarborDaysValid || 90` days.  Dates
are modelled as day numbers; the shift is defined when the chosen
day-count value is a number (`setDate` coercion of other values is out
of scope of the claims). -/
def safeHarborExpirationDay (daysValid : JSValue) (baseDay : Int) : Option Int :=
  match jsOr daysValid (.vNum 90) with
  | .vNum n => some (baseDay + n)
  | _ => none

end ProtectionJs

/-! ## Derived notions and concrete scenarios -/

/-- The accept button is disabled exactly when the checkbox is
unchecked (vacuously true when the safe-harbor modal is absent).  This
is the rendering invariant of the disclaimer-pending screen. -/
def shInv (d : Dom) : Bool :=
  match d.safeHarbor with
  | none => true
  | some sh => sh.acceptDisabled == !sh.checkboxChecked

/-- A document in the LOCKED state with the given challenge-input value
(challenge modal visible, error text hidden, no safe-harbor modal,
protected region present and unauthorized). -/
def lockedDom (inputVal : String) : Dom :=
  { input := some inputVal, errorVisible := some false, challengeHidden := some false,
    safeHarbor := none, contentAuthorized := some false }

/-- The configuration of the spec's concrete scenario:
`{acceptedAnswers: ["MULTIAXIS","MULTIAXIS LLC"], enableSafeHarbor: false}`
with success and error callbacks installed. -/
def cfgScenario : Config :=
  { acceptedAnswers := ["MULTIAXIS", "MULTIAXIS LLC"], enableSafeHarbor := false,
    sessionKey := "multiaxis_protection", safeHarborKey := none,
    hasBeforeCheck := false, hasOnSuccess := true, hasOnError := true,
    hasOnSafeHarborAccept := false, hasOnSafeHarborDecline := false }

/-- A default-keyed configuration with the safe-harbor step enabled and
every callback installed. -/
def cfgSH : Config :=
  { acceptedAnswers := ["MULTIAXIS", "MULTIAXIS LLC", "MULTIAXIS AI"], enableSafeHarbor := true,
    sessionKey := "multiaxis_protection", safeHarborKey := none,
    hasBeforeCheck := true, hasOnSuccess := true, hasOnError := true,
    hasOnSafeHarborAccept := true, hasOnSafeHarborDecline := true }

/-- Stored flags after the keyword step only: `granted` is set, the
safe-harbor key is absent. -/
def stGranted : Storage := [("multiaxis_protection", "granted")]

/-- Stored flags after both steps: `granted` and `accepted` are set
under the default keys. -/
def stBoth : Storage :=
  [("multiaxis_protection", "granted"), ("multiaxis_protection_safeharbor", "accepted")]

/-- A world in DISCLAIMER_PENDING: challenge modal hidden, safe-harbor
modal shown with the checkbox already checked (so the accept button is
enabled), a `granted` flag and one unrelated session entry. -/
def wPending : World :=
  { dom := { input := some "", errorVisible := some false, challengeHidden := some true,
             safeHarbor := some { hidden := false, checkboxChecked := true, acceptDisabled := false },
             contentAuthorized := some false },
    storage := [("multiaxis_protection", "granted"), ("unrelated", "keep")],
    events := [] }

/-- The world `wPending` with the protected-region element absent from
the document (the element the inline accept handler looks up under its
hard-coded id). -/
def wPendingNoContent : World :=
  { dom := { input := some "", errorVisible := some false, challengeHidden := some true,
             safeHarbor := some { hidden := false, checkboxChecked := true, acceptDisabled := false },
             contentAuthorized := none },
    storage := [("multiaxis_protection", "granted"), ("unrelated", "keep")],
    events := [] }

/-- A world whose challenge input element is missing from the document
(for example because `setup` never ran before `checkAccess` was
invoked through the public API). -/
def wNoInput : World :=
  { dom := { input := none, errorVisible := some false, challengeHidden := some false,
             safeHarbor := none, contentAuthorized := some false },
    storage := [], events := [] }

/-! # Theorems -/

/-! ## Association-list facts -/

theorem lookupKey_removeKey_self {α : Type} (s : List (String × α)) (k : String) :
    lookupKey (removeKey s k) k = none := by
  induction s with
  | nil => rfl
  | cons hd tl ih =>
      obtain ⟨k1, v1⟩ := hd
      by_cases h : k1 = k
      · simpa [removeKey, h] using ih
      · simp [removeKey, lookupKey, h, ih]

theorem lookupKey_removeKey_other {α : Type} (s : List (String × α)) (k k2 : String)
    (h : k2 ≠ k) : lookupKey (removeKey s k) k2 = lookupKey s k2 := by
  induction s with
  | nil => rfl
  | cons hd tl ih =>
      obtain ⟨k1, v1⟩ := hd
      by_cases h1 : k1 = k
      · have hk : ¬ (k = k2) := fun hc => h hc.symm
        simp [removeKey, lookupKey, h1, hk, ih]
      · by_cases h2 : k1 = k2
        · simp [removeKey, lookupKey, h1, h2, h]
        · simp [removeKey, lookupKey, h1, h2, ih]

theorem getItem_setItem_self (s : Storage) (k v : String) :
    (s.setItem k v).getItem k = some v := by
  simp [Storage.setItem, Storage.getItem, lookupKey]

theorem getItem_setItem_other (s : Storage) (k k2 v : String) (h : k2 ≠ k) :
    (s.setItem k v).getItem k2 = s.getItem k2 := by
  have hk : ¬ (k = k2) := fun hc => h hc.symm
  simp only [Storage.setItem, Storage.getItem, lookupKey, if_neg hk]
  exact lookupKey_removeKey_other s k k2 h

theorem getItem_removeItem_self (s : Storage) (k : String) :
    (s.removeItem k).getItem k = none :=
  lookupKey_removeKey_self s k

theorem getItem_removeItem_other (s : Storage) (k k2 : String) (h : k2 ≠ k) :
    (s.removeItem k).getItem k2 = s.getItem k2 :=
  lookupKey_removeKey_other s k k2 h

theorem lookupKey_append {α : Type} (l1 l2 : List (String × α)) (k : String) :
    lookupKey (l1 ++ l2) k =
      match lookupKey l1 k with
      | some v => some v
      | none => lookupKey l2 k := by
  induction l1 with
  | nil => rfl
  | cons hd tl ih =>
      obtain ⟨k1, v1⟩ := hd
      by_cases h1 : k1 = k
      · simp [lookupKey, h1]
      · simp [lookupKey, h1, ih]

/-! ## The answer test -/

theorem answer_any_iff_exists (answers : List String) (ua : String) :
    (answers.any (fun answer =>
        ua == jsToUpper answer || ua == jsToUpper (stripWs answer)) = true)
    ↔ ∃ a ∈ answers, ua = jsToUpper a ∨ ua = jsToUpper (stripWs a) := by
  simp [List.any_eq_true]

/-! ## Behaviour of a submit (`checkAccess`) -/

/-- A correct submit: the challenge modal gains the `hidden` class and
the primary session flag becomes `granted` (whatever the safe-harbor
setting and the presence of the safe-harbor modal). -/
theorem checkAccess_pass (cfg : Config) (w : World) (s : String) (c e : Bool)
    (hin : w.dom.input = some s) (hm : w.dom.challengeHidden = some c)
    (herr : w.dom.errorVisible = some e)
    (hany : cfg.acceptedAnswers.any (fun answer =>
        jsToUpper (jsTrim s) == jsToUpper answer ||
        jsToUpper (jsTrim s) == jsToUpper (stripWs answer)) = true) :
    ∃ w', ProtectionJs.checkAccess cfg w = Except.ok w' ∧
      w'.storage.getItem cfg.sessionKey = some "granted" ∧
      w'.dom.challengeHidden = some true := by
  cases hes : cfg.enableSafeHarbor
  case false =>
    cases hos : cfg.hasOnSuccess <;>
      simp [ProtectionJs.checkAccess, checkAccessCore, hin, hm, herr, hany, hes, hos,
            showProtectedContent, getItem_setItem_self]
  case true =>
    cases hsh : w.dom.safeHarbor <;> cases hos : cfg.hasOnSuccess <;>
      simp [ProtectionJs.checkAccess, checkAccessCore, ProtectionJs.showSafeHarborModal,
            hin, hm, herr, hany, hes, hos, hsh, getItem_setItem_self]

/-- A wrong submit: the exact resulting world (error text shown, input
cleared, the configured callbacks logged, everything else untouched). -/
theorem checkAccess_fail (cfg : Config) (w : World) (s : String) (e : Bool)
    (hin : w.dom.input = some s) (herr : w.dom.errorVisible = some e)
    (hany : cfg.acceptedAnswers.any (fun answer =>
        jsToUpper (jsTrim s) == jsToUpper answer ||
        jsToUpper (jsTrim s) == jsToUpper (stripWs answer)) = false) :
    ProtectionJs.checkAccess cfg w = Except.ok { w with
      dom := { w.dom with errorVisible := some true, input := some "" },
      events := (w.events ++ (if cfg.hasBeforeCheck then [Event.beforeCheck (jsToUpper (jsTrim s))] else []))
        ++ (if cfg.hasOnError then [Event.onError (jsToUpper (jsTrim s))] else []) } := by
  simp [ProtectionJs.checkAccess, checkAccessCore, hin, herr, hany]

/-- C1: with the challenge elements present, a submit passes (modal
hidden, session flag set to `granted`) iff the trimmed upper-cased
candidate equals some accepted answer upper-cased verbatim, or that
answer with its whitespace removed and upper-cased. -/
theorem checkAccess_pass_iff (cfg : Config) (w : World) (s : String) (c e : Bool)
    (hin : w.dom.input = some s) (hm : w.dom.challengeHidden = some c)
    (herr : w.dom.errorVisible = some e)
    (hst : w.storage.getItem cfg.sessionKey = none) :
    (∃ w', ProtectionJs.checkAccess cfg w = Except.ok w' ∧
       w'.storage.getItem cfg.sessionKey = some "granted" ∧
       w'.dom.challengeHidden = some true)
    ↔ ∃ a ∈ cfg.acceptedAnswers,
        jsToUpper (jsTrim s) = jsToUpper a ∨ jsToUpper (jsTrim s) = jsToUpper (stripWs a) := by
  constructor
  · rintro ⟨w', hok, hg, -⟩
    by_cases hany : cfg.acceptedAnswers.any (fun answer =>
        jsToUpper (jsTrim s) == jsToUpper answer ||
        jsToUpper (jsTrim s) == jsToUpper (stripWs answer)) = true
    · exact (answer_any_iff_exists _ _).mp hany
    · exfalso
      have hfalse : cfg.acceptedAnswers.any (fun answer =>
          jsToUpper (jsTrim s) == jsToUpper answer ||
          jsToUpper (jsTrim s) == jsToUpper (stripWs answer)) = false := by
        revert hany; cases cfg.acceptedAnswers.any _ <;> simp
      have hf := checkAccess_fail cfg w s e hin herr hfalse
      rw [hf] at hok
      injection hok with hw
      rw [← hw] at hg
      rw [show ({ w with
        dom := { w.dom with errorVisible := some true, input := some "" },
        events := (w.events ++ (if cfg.hasBeforeCheck then [Event.beforeCheck (jsToUpper (jsTrim s))] else []))
          ++ (if cfg.hasOnError then [Event.onError (jsToUpper (jsTrim s))] else []) } : World).storage = w.storage from rfl] at hg
      rw [hst] at hg
      exact Option.noConfusion hg
  · intro hex
    exact checkAccess_pass cfg w s c e hin hm herr ((answer_any_iff_exists _ _).mpr hex)

/-- C1 witness: in the spec's concrete scenario, `"MultiaxisLLC"`
passes and `"multi axis"` does not. -/
theorem checkAccess_pass_iff_scenario :
    (∃ w', ProtectionJs.checkAccess cfgScenario
        { dom := lockedDom "MultiaxisLLC", storage := [], events := [] } = Except.ok w' ∧
      w'.storage.getItem cfgScenario.sessionKey = some "granted" ∧
      w'.dom.challengeHidden = some true) ∧
    ¬ (∃ w', ProtectionJs.checkAccess cfgScenario
        { dom := lockedDom "multi axis", storage := [], events := [] } = Except.ok w' ∧
      w'.storage.getItem cfgScenario.sessionKey = some "granted" ∧
      w'.dom.challengeHidden = some true) := by
  constructor
  · exact (checkAccess_pass_iff cfgScenario
      { dom := lockedDom "MultiaxisLLC", storage := [], events := [] }
      "MultiaxisLLC" false false rfl rfl rfl rfl).mpr
      ⟨"MULTIAXIS LLC", by decide, Or.inr (by decide)⟩
  · intro h
    have := (checkAccess_pass_iff cfgScenario
      { dom := lockedDom "multi axis", storage := [], events := [] }
      "multi axis" false false rfl rfl rfl rfl).mp h
    revert this
    decide

/-- C3: a submit matching no accepted answer leaves the storage
untouched (no write to either session key), leaves the gate LOCKED
(modal visibility, safe-harbor modal and protected region unchanged),
appends exactly one error-callback invocation carrying the normalised
candidate, and a later correct submit still succeeds. -/
theorem checkAccess_reject (cfg : Config) (w : World) (s : String) (c e : Bool)
    (hin : w.dom.input = some s) (hm : w.dom.challengeHidden = some c)
    (herr : w.dom.errorVisible = some e) (hoe : cfg.hasOnError = true)
    (hnm : ¬ ∃ a ∈ cfg.acceptedAnswers,
        jsToUpper (jsTrim s) = jsToUpper a ∨ jsToUpper (jsTrim s) = jsToUpper (stripWs a)) :
    ∃ w', ProtectionJs.checkAccess cfg w = Except.ok w' ∧
      w'.storage = w.storage ∧
      w'.dom.challengeHidden = some c ∧
      w'.dom.safeHarbor = w.dom.safeHarbor ∧
      w'.dom.contentAuthorized = w.dom.contentAuthorized ∧
      w'.events = (w.events ++ (if cfg.hasBeforeCheck then [Event.beforeCheck (jsToUpper (jsTrim s))] else []))
        ++ [Event.onError (jsToUpper (jsTrim s))] ∧
      (∀ s2, (∃ a ∈ cfg.acceptedAnswers,
          jsToUpper (jsTrim s2) = jsToUpper a ∨ jsToUpper (jsTrim s2) = jsToUpper (stripWs a)) →
        ∃ w2, ProtectionJs.checkAccess cfg { w' with dom := { w'.dom with input := some s2 } } = Except.ok w2 ∧
          w2.storage.getItem cfg.sessionKey = some "granted" ∧ w2.dom.challengeHidden = some true) := by
  have hfalse : cfg.acceptedAnswers.any (fun answer =>
      jsToUpper (jsTrim s) == jsToUpper answer ||
      jsToUpper (jsTrim s) == jsToUpper (stripWs answer)) = false := by
    cases hb : cfg.acceptedAnswers.any (fun answer =>
        jsToUpper (jsTrim s) == jsToUpper answer ||
        jsToUpper (jsTrim s) == jsToUpper (stripWs answer))
    · rfl
    · exact absurd ((answer_any_iff_exists _ _).mp hb) hnm
  have hf := checkAccess_fail cfg w s e hin herr hfalse
  refine ⟨_, hf, rfl, hm, rfl, rfl, by simp [hoe], ?_⟩
  intro s2 hs2
  exact checkAccess_pass cfg _ s2 c true rfl hm rfl ((answer_any_iff_exists _ _).mpr hs2)

/-- C3 witness: submitting `"multi axis"` in the scenario configuration
fails, changes nothing but the error display, fires the error callback
once, and a following `"MULTIAXIS"` submit succeeds. -/
theorem checkAccess_reject_witness :
    ∃ w', ProtectionJs.checkAccess cfgScenario
        { dom := lockedDom "multi axis", storage := [], events := [] } = Except.ok w' ∧
      w'.storage = [] ∧
      w'.dom.challengeHidden = some false ∧
      w'.dom.safeHarbor = none ∧
      w'.dom.contentAuthorized = some false ∧
      w'.events = ([] ++ (if cfgScenario.hasBeforeCheck then [Event.beforeCheck (jsToUpper (jsTrim "multi axis"))] else []))
        ++ [Event.onError (jsToUpper (jsTrim "multi axis"))] ∧
      (∀ s2, (∃ a ∈ cfgScenario.acceptedAnswers,
          jsToUpper (jsTrim s2) = jsToUpper a ∨ jsToUpper (jsTrim s2) = jsToUpper (stripWs a)) →
        ∃ w2, ProtectionJs.checkAccess cfgScenario { w' with dom := { w'.dom with input := some s2 } } = Except.ok w2 ∧
          w2.storage.getItem cfgScenario.sessionKey = some "granted" ∧ w2.dom.challengeHidden = some true) :=
  checkAccess_reject cfgScenario { dom := lockedDom "multi axis", storage := [], events := [] }
    "multi axis" false false rfl rfl rfl rfl (by decide)

/-! ## Initial resolution (`setup` / `checkExistingAccess`) -/

/-- C5: when the stored flags satisfy granted AND (disclaimer disabled
OR accepted), setup of either variant resolves directly to UNLOCKED:
both overlays hidden, protected region revealed, storage untouched, no
callback fired. -/
theorem setup_unlocked (cfg : Config) (storage : Storage) (cp : Bool)
    (hg : storage.getItem cfg.sessionKey = some "granted")
    (ha : cfg.enableSafeHarbor = false ∨
      storage.getItem (effectiveSafeHarborKey cfg) = some "accepted") :
    ProtectionJs.setup cfg storage cp =
      { dom := { input := some "", errorVisible := some false, challengeHidden := some true,
                 safeHarbor := (if cfg.enableSafeHarbor then
                     some { hidden := true, checkboxChecked := false, acceptDisabled := true } else none),
                 contentAuthorized := (if cp then some true else none) },
        storage := storage, events := [] } ∧
    Part000.setup cfg storage cp =
      { dom := { input := some "", errorVisible := some false, challengeHidden := some true,
                 safeHarbor := (if cfg.enableSafeHarbor then
                     some { hidden := true, checkboxChecked := false, acceptDisabled := true } else none),
                 contentAuthorized := (if cp then some true else none) },
        storage := storage, events := [] } := by
  rcases ha with ha | ha
  · cases cp <;>
      simp [ProtectionJs.setup, ProtectionJs.initialDom, Part000.setup, Part000.initialDom,
            Part000.checkExistingAccess, showProtectedContent, hg, ha]
  · cases hes : cfg.enableSafeHarbor <;> cases cp <;>
      simp [ProtectionJs.setup, ProtectionJs.initialDom, Part000.setup, Part000.initialDom,
            Part000.checkExistingAccess, showProtectedContent, hg, ha, hes]

/-- C5 witness: re-entering with both flags stored and the disclaimer
enabled yields immediate UNLOCKED in both variants. -/
theorem setup_unlocked_witness :
    ProtectionJs.setup cfgSH stBoth true =
      { dom := { input := some "", errorVisible := some false, challengeHidden := some true,
                 safeHarbor := some { hidden := true, checkboxChecked := false, acceptDisabled := true },
                 contentAuthorized := some true },
        storage := stBoth, events := [] } ∧
    Part000.setup cfgSH stBoth true =
      { dom := { input := some "", errorVisible := some false, challengeHidden := some true,
                 safeHarbor := some { hidden := true, checkboxChecked := false, acceptDisabled := true },
                 contentAuthorized := some true },
        storage := stBoth, events := [] } :=
  setup_unlocked cfgSH stBoth true (by decide) (Or.inr (by decide))

/-- C2 counterexample: with the disclaimer enabled and stored flags
granted and not accepted, `setup` of `src/protection.js` shows the
keyword challenge (its modal is NOT hidden), keeps the disclaimer
overlay hidden, and clears both flags — contradicting the claim that
the challenge overlay is never shown in this partial state. -/
theorem partial_state_cex :
    cfgSH.enableSafeHarbor = true
    ∧ stGranted.getItem cfgSH.sessionKey = some "granted"
    ∧ stGranted.getItem (effectiveSafeHarborKey cfgSH) = none
    ∧ (ProtectionJs.setup cfgSH stGranted true).dom.challengeHidden = some false
    ∧ (ProtectionJs.setup cfgSH stGranted true).dom.safeHarbor
        = some { hidden := true, checkboxChecked := false, acceptDisabled := true }
    ∧ (ProtectionJs.setup cfgSH stGranted true).storage = [] := by decide

/-- C2 (amended): in the partial state granted-but-not-accepted with
the disclaimer enabled, the `part_000` variant resolves to
DISCLAIMER_PENDING — only the disclaimer overlay shown, challenge
hidden, flags kept — while the `protection.js` variant clears both
flags and re-prompts the keyword challenge with the disclaimer
hidden. -/
theorem partial_state_resolution (cfg : Config) (storage : Storage) (cp : Bool)
    (hen : cfg.enableSafeHarbor = true)
    (hg : storage.getItem cfg.sessionKey = some "granted")
    (hna : ¬ storage.getItem (effectiveSafeHarborKey cfg) = some "accepted") :
    Part000.setup cfg storage cp =
      { dom := { input := some "", errorVisible := some false, challengeHidden := some true,
                 safeHarbor := some { hidden := false, checkboxChecked := false, acceptDisabled := true },
                 contentAuthorized := (if cp then some false else none) },
        storage := storage, events := [] } ∧
    ProtectionJs.setup cfg storage cp =
      { dom := { input := some "", errorVisible := some false, challengeHidden := some false,
                 safeHarbor := some { hidden := true, checkboxChecked := false, acceptDisabled := true },
                 contentAuthorized := (if cp then some false else none) },
        storage := (storage.removeItem cfg.sessionKey).removeItem (effectiveSafeHarborKey cfg),
        events := [] } := by
  cases cp <;>
    simp [ProtectionJs.setup, ProtectionJs.initialDom, Part000.setup, Part000.initialDom,
          Part000.checkExistingAccess, Part000.showSafeHarborModal, showProtectedContent,
          hen, hg, hna]

/-- C2 witness: the amended resolution at the concrete partial state
under the default keys. -/
theorem partial_state_resolution_witness :
    Part000.setup cfgSH stGranted true =
      { dom := { input := some "", errorVisible := some false, challengeHidden := some true,
                 safeHarbor := some { hidden := false, checkboxChecked := false, acceptDisabled := true },
                 contentAuthorized := some false },
        storage := stGranted, events := [] } ∧
    ProtectionJs.setup cfgSH stGranted true =
      { dom := { input := some "", errorVisible := some false, challengeHidden := some false,
                 safeHarbor := some { hidden := true, checkboxChecked := false, acceptDisabled := true },
                 contentAuthorized := some false },
        storage := (stGranted.removeItem cfgSH.sessionKey).removeItem (effectiveSafeHarborKey cfgSH),
        events := [] } :=
  partial_state_resolution cfgSH stGranted true rfl (by decide) (by decide)

/-! ## Decline and reset -/

/-- C4 counterexample: the inline decline handler of
`src/protection.js` runs `sessionStorage.clear()`, wiping a session
entry unrelated to the two gate flags, and invokes no decline callback
although one is configured — contradicting the claim that decline
clears only the two flags and invokes the decline hook. -/
theorem decline_cex :
    wPending.storage.getItem "unrelated" = some "keep"
    ∧ (ProtectionJs.declineSafeHarbor wPending).storage.getItem "unrelated" = none
    ∧ cfgSH.hasOnSafeHarborDecline = true
    ∧ Event.onSafeHarborDecline ∉ (ProtectionJs.declineSafeHarbor wPending).events := by decide

/-- C4 (amended): in the `part_000` variant, declining removes exactly
the primary and safe-harbor keys, preserves every other entry, invokes
the decline callback, and the forced reload re-enters at LOCKED; in
the `protection.js` variant the inline handler empties the whole
session storage, invokes no callback, and navigates away — after which
a load also starts at LOCKED. -/
theorem decline_behavior (cfg : Config) (w : World) (k : String) (cp : Bool)
    (hdk : cfg.hasOnSafeHarborDecline = true) :
    (Part000.declineSafeHarbor cfg w).storage.getItem cfg.sessionKey = none
    ∧ (Part000.declineSafeHarbor cfg w).storage.getItem (effectiveSafeHarborKey cfg) = none
    ∧ (k ≠ cfg.sessionKey → k ≠ effectiveSafeHarborKey cfg →
        (Part000.declineSafeHarbor cfg w).storage.getItem k = w.storage.getItem k)
    ∧ (Part000.declineSafeHarbor cfg w).events = w.events ++ [Event.onSafeHarborDecline]
    ∧ (Part000.setup cfg (Part000.declineSafeHarbor cfg w).storage cp).dom.challengeHidden = some false
    ∧ (Part000.setup cfg (Part000.declineSafeHarbor cfg w).storage cp).dom.contentAuthorized
        = (if cp then some false else none)
    ∧ (ProtectionJs.declineSafeHarbor w).storage = []
    ∧ (ProtectionJs.setup cfg (ProtectionJs.declineSafeHarbor w).storage cp).dom.challengeHidden
        = some false := by
  have hsk : (Part000.declineSafeHarbor cfg w).storage.getItem cfg.sessionKey = none := by
    by_cases heq : cfg.sessionKey = effectiveSafeHarborKey cfg
    · conv_lhs => rw [heq]
      exact getItem_removeItem_self _ _
    · rw [show (Part000.declineSafeHarbor cfg w).storage
          = ((w.storage.removeItem cfg.sessionKey).removeItem (effectiveSafeHarborKey cfg)) from rfl,
        getItem_removeItem_other _ _ _ heq]
      exact getItem_removeItem_self _ _
  refine ⟨hsk, getItem_removeItem_self _ _, ?_, by simp [Part000.declineSafeHarbor, hdk], ?_, ?_, rfl, ?_⟩
  · intro hk1 hk2
    rw [show (Part000.declineSafeHarbor cfg w).storage
          = ((w.storage.removeItem cfg.sessionKey).removeItem (effectiveSafeHarborKey cfg)) from rfl,
      getItem_removeItem_other _ _ _ hk2, getItem_removeItem_other _ _ _ hk1]
  · cases cp <;>
      simp [Part000.setup, Part000.initialDom, Part000.checkExistingAccess, showProtectedContent, hsk]
  · cases cp <;>
      simp [Part000.setup, Part000.initialDom, Part000.checkExistingAccess, showProtectedContent, hsk]
  · cases cp <;>
      simp [ProtectionJs.setup, ProtectionJs.initialDom, ProtectionJs.declineSafeHarbor,
            showProtectedContent, Storage.getItem, lookupKey]

/-- C4 witness: declining in the `part_000` variant from a concrete
DISCLAIMER_PENDING world clears exactly the two flags, keeps the
unrelated entry, fires the decline callback, and reloads into a state
whose challenge modal is visible. -/
theorem decline_behavior_witness :
    (Part000.declineSafeHarbor cfgSH wPending).storage.getItem cfgSH.sessionKey = none
    ∧ (Part000.declineSafeHarbor cfgSH wPending).storage.getItem (effectiveSafeHarborKey cfgSH) = none
    ∧ (Part000.declineSafeHarbor cfgSH wPending).storage.getItem "unrelated" = some "keep"
    ∧ (Part000.declineSafeHarbor cfgSH wPending).events = wPending.events ++ [Event.onSafeHarborDecline]
    ∧ (Part000.setup cfgSH (Part000.declineSafeHarbor cfgSH wPending).storage true).dom.challengeHidden
        = some false := by
  obtain ⟨h1, h2, h3, h4, h5, h6, h7, h8⟩ := decline_behavior cfgSH wPending "unrelated" true rfl
  exact ⟨h1, h2, by rw [h3 (by decide) (by decide)]; decide, h4, h5⟩

/-- C8: `reset` removes the primary session key, changes no other
entry, and the forced reload re-enters at LOCKED in both variants
(challenge modal visible, protected region not authorized). -/
theorem reset_relocks (cfg : Config) (storage : Storage) (k : String) (cp : Bool) :
    (ProtectionJs.reset cfg storage).getItem cfg.sessionKey = none
    ∧ (k ≠ cfg.sessionKey → (ProtectionJs.reset cfg storage).getItem k = storage.getItem k)
    ∧ (ProtectionJs.setup cfg (ProtectionJs.reset cfg storage) cp).dom.challengeHidden = some false
    ∧ (ProtectionJs.setup cfg (ProtectionJs.reset cfg storage) cp).dom.contentAuthorized
        = (if cp then some false else none)
    ∧ (Part000.setup cfg (ProtectionJs.reset cfg storage) cp).dom.challengeHidden = some false
    ∧ (Part000.setup cfg (ProtectionJs.reset cfg storage) cp).dom.contentAuthorized
        = (if cp then some false else none) := by
  have hnone : (ProtectionJs.reset cfg storage).getItem cfg.sessionKey = none :=
    getItem_removeItem_self storage cfg.sessionKey
  refine ⟨hnone, fun hk => getItem_removeItem_other storage cfg.sessionKey k hk, ?_, ?_, ?_, ?_⟩ <;>
    cases cp <;>
      simp [ProtectionJs.setup, ProtectionJs.initialDom, Part000.setup, Part000.initialDom,
            Part000.checkExistingAccess, showProtectedContent, hnone]

/-- C8 witness: resetting from a fully-unlocked stored state removes
only the primary key — the safe-harbor flag survives — and the next
load shows the challenge. -/
theorem reset_relocks_witness :
    (ProtectionJs.reset cfgSH stBoth).getItem cfgSH.sessionKey = none
    ∧ (ProtectionJs.reset cfgSH stBoth).getItem "multiaxis_protection_safeharbor" = some "accepted"
    ∧ (ProtectionJs.setup cfgSH (ProtectionJs.reset cfgSH stBoth) true).dom.challengeHidden = some false := by
  obtain ⟨h1, h2, h3, h4, h5, h6⟩ := reset_relocks cfgSH stBoth "multiaxis_protection_safeharbor" true
  exact ⟨h1, by rw [h2 (by decide)]; decide, h3⟩

/-! ## The safe-harbor acknowledgment gate -/

theorem stepUI_shInv_A (cfg : Config) (w : World) (op : UIOp) (h : shInv w.dom = true) :
    ∀ w2, ProtectionJs.stepUI cfg w op = Except.ok w2 → shInv w2.dom = true := by
  intro w2 hok
  cases op with
  | setCheckbox b =>
      cases hsh : w.dom.safeHarbor with
      | none =>
          simp only [ProtectionJs.stepUI, hsh] at hok
          injection hok with he; rw [← he]; exact h
      | some sh =>
          simp only [ProtectionJs.stepUI, hsh] at hok
          injection hok with he; rw [← he]; simp [shInv]
  | showModal =>
      simp only [ProtectionJs.stepUI] at hok
      injection hok with he; rw [← he]
      cases hsh : w.dom.safeHarbor with
      | none => simp [ProtectionJs.showSafeHarborModal, hsh, shInv]
      | some sh => simp [ProtectionJs.showSafeHarborModal, hsh, shInv]
  | clickAccept =>
      cases hsh : w.dom.safeHarbor with
      | none =>
          simp only [ProtectionJs.stepUI, hsh] at hok
          injection hok with he; rw [← he]; exact h
      | some sh =>
          simp only [ProtectionJs.stepUI, hsh] at hok
          by_cases hd : sh.acceptDisabled = true
          · rw [if_pos hd] at hok; injection hok with he; rw [← he]; exact h
          · rw [if_neg hd] at hok
            by_cases hc : sh.checkboxChecked = true
            · rw [if_pos hc] at hok
              cases hca : w.dom.contentAuthorized with
              | none => rw [hca] at hok; exact absurd hok (by simp)
              | some b =>
                  rw [hca] at hok; injection hok with he; rw [← he]
                  simp only [shInv, hsh] at h
                  simpa [shInv] using h
            · rw [if_neg hc] at hok; injection hok with he; rw [← he]; exact h

theorem stepUI_shInv_B (cfg : Config) (w : World) (op : UIOp) (h : shInv w.dom = true) :
    shInv ((Part000.stepUI cfg w op).dom) = true := by
  cases hsh : w.dom.safeHarbor with
  | none =>
      cases op <;> simp_all [Part000.stepUI, Part000.showSafeHarborModal, shInv, hsh]
  | some sh =>
      simp only [shInv, hsh] at h
      cases op with
      | setCheckbox b => simp [Part000.stepUI, shInv, hsh]
      | clickAccept =>
          simp only [Part000.stepUI, hsh]
          split_ifs <;> simp_all [shInv, hsh]
      | showModal =>
          simp only [beq_iff_eq] at h
          simp [Part000.stepUI, Part000.showSafeHarborModal, shInv, hsh, h]

theorem runUI_shInv (cfg : Config) (ops : List UIOp) (w : World) (h : shInv w.dom = true) :
    ∀ w', ProtectionJs.runUI cfg w ops = Except.ok w' → shInv w'.dom = true := by
  induction ops generalizing w with
  | nil =>
      intro w' hok
      simp only [ProtectionJs.runUI] at hok
      injection hok with he
      rw [← he]; exact h
  | cons op rest ih =>
      intro w' hok
      simp only [ProtectionJs.runUI] at hok
      cases hstep : ProtectionJs.stepUI cfg w op with
      | error e => rw [hstep] at hok; exact absurd hok (by simp)
      | ok w2 =>
          rw [hstep] at hok
          exact ih w2 (stepUI_shInv_A cfg w op h w2 hstep) w' hok

theorem foldl_shInv_B (cfg : Config) (ops : List UIOp) (w : World) (h : shInv w.dom = true) :
    shInv ((ops.foldl (Part000.stepUI cfg) w).dom) = true := by
  induction ops generalizing w with
  | nil => exact h
  | cons op rest ih =>
      simp only [List.foldl_cons]
      exact ih _ (stepUI_shInv_B cfg w op h)

/-- C6 counterexample: with the accept callback configured and the
protected region present, a checked accept click in `src/protection.js`
stores `accepted` and unlocks but appends NO event — the inline handler
contains no `onSafeHarborAccept` call; and with the protected region
absent the same click throws a TypeError, so not even the flag is
stored.  Both refute the claim that accept always stores the flag,
unlocks and invokes the hook. -/
theorem accept_hook_cex :
    cfgSH.hasOnSafeHarborAccept = true
    ∧ ProtectionJs.stepUI cfgSH wPending UIOp.clickAccept = Except.ok
        { dom := { input := some "", errorVisible := some false, challengeHidden := some true,
                   safeHarbor := some { hidden := true, checkboxChecked := true, acceptDisabled := false },
                   contentAuthorized := some true },
          storage := [("multiaxis_protection_safeharbor", "accepted"),
                      ("multiaxis_protection", "granted"), ("unrelated", "keep")],
          events := [] }
    ∧ ProtectionJs.stepUI cfgSH wPendingNoContent UIOp.clickAccept = Except.error JsErr.typeError :=
  ⟨rfl, rfl, rfl⟩

/-- C6 (amended): under any interaction sequence the accept button is
disabled exactly while the checkbox is unchecked, so accept never
fires unacknowledged, and an unchecked click is a no-op.  A checked
accept in the `part_000` variant stores `accepted` under the
safe-harbor key, hides the modal, reveals the region when present and
invokes the accept hook when configured.  A checked accept in the
`protection.js` variant stores the flag and unlocks only when the
hard-coded protected-content element is present — with it absent the
inline handler throws a TypeError before the flag is stored — and it
never invokes the disclaimer-accept hook. -/
theorem accept_gate (cfg : Config) (w : World) (hinv : shInv w.dom = true) :
    (∀ ops : List UIOp, ∀ w', ProtectionJs.runUI cfg w ops = Except.ok w' → shInv w'.dom = true) ∧
    (∀ ops : List UIOp, shInv ((ops.foldl (Part000.stepUI cfg) w).dom) = true) ∧
    (∀ sh, w.dom.safeHarbor = some sh → sh.checkboxChecked = false →
        ProtectionJs.stepUI cfg w UIOp.clickAccept = Except.ok w ∧
        Part000.stepUI cfg w UIOp.clickAccept = w) ∧
    (∀ sh, w.dom.safeHarbor = some sh → sh.checkboxChecked = true →
        ((∀ b, w.dom.contentAuthorized = some b →
            ProtectionJs.stepUI cfg w UIOp.clickAccept = Except.ok { w with
              dom := { w.dom with
                safeHarbor := some { sh with hidden := true },
                contentAuthorized := some true },
              storage := w.storage.setItem (effectiveSafeHarborKey cfg) "accepted" })
          ∧ (w.dom.contentAuthorized = none →
              ProtectionJs.stepUI cfg w UIOp.clickAccept = Except.error JsErr.typeError))
        ∧ ((Part000.stepUI cfg w UIOp.clickAccept).storage.getItem (effectiveSafeHarborKey cfg) = some "accepted"
          ∧ (Part000.stepUI cfg w UIOp.clickAccept).dom.safeHarbor = some { sh with hidden := true }
          ∧ (Part000.stepUI cfg w UIOp.clickAccept).dom.contentAuthorized = w.dom.contentAuthorized.map (fun _ => true)
          ∧ (cfg.hasOnSafeHarborAccept = true →
              (Part000.stepUI cfg w UIOp.clickAccept).events = w.events ++ [Event.onSafeHarborAccept]))) := by
  refine ⟨fun ops => runUI_shInv cfg ops w hinv, fun ops => foldl_shInv_B cfg ops w hinv, ?_, ?_⟩
  · intro sh hsh hc
    constructor <;> simp [ProtectionJs.stepUI, Part000.stepUI, hsh, hc]
  · intro sh hsh hc
    have hd : sh.acceptDisabled = false := by
      simpa [shInv, hsh, hc] using hinv
    refine ⟨⟨?_, ?_⟩, ?_⟩
    · intro b hca
      simp [ProtectionJs.stepUI, hsh, hc, hd, hca]
    · intro hca
      simp [ProtectionJs.stepUI, hsh, hc, hd, hca]
    · cases hacc : cfg.hasOnSafeHarborAccept <;>
        simp [Part000.stepUI, hsh, hc, hd, hacc, getItem_setItem_self]

/-- C6 witness: at a concrete DISCLAIMER_PENDING world, the invariant
holds along a run, a checked accept stores the flag without any event
in `protection.js` (hook firing in `part_000`), and the same click
throws when the region is absent. -/
theorem accept_gate_witness :
    ProtectionJs.stepUI cfgSH wPending UIOp.clickAccept = Except.ok { wPending with
        dom := { wPending.dom with
          safeHarbor := some { hidden := true, checkboxChecked := true, acceptDisabled := false },
          contentAuthorized := some true },
        storage := wPending.storage.setItem (effectiveSafeHarborKey cfgSH) "accepted" }
    ∧ ProtectionJs.stepUI cfgSH wPendingNoContent UIOp.clickAccept = Except.error JsErr.typeError
    ∧ (Part000.stepUI cfgSH wPending UIOp.clickAccept).events
        = wPending.events ++ [Event.onSafeHarborAccept]
    ∧ (∀ w', ProtectionJs.runUI cfgSH wPending
        [UIOp.setCheckbox false, UIOp.setCheckbox true] = Except.ok w' → shInv w'.dom = true) :=
  ⟨(((accept_gate cfgSH wPending (by decide)).2.2.2 _ rfl rfl).1).1 false rfl,
   (((accept_gate cfgSH wPendingNoContent (by decide)).2.2.2 _ rfl rfl).1).2 rfl,
   ((((accept_gate cfgSH wPending (by decide)).2.2.2 _ rfl rfl).2).2.2.2) rfl,
   (accept_gate cfgSH wPending (by decide)).1 _⟩

/-! ## Robustness against missing DOM nodes -/

/-- C7 counterexample: with the challenge input element absent,
`checkAccess` dereferences `null` and a TypeError escapes to the
caller — contradicting the claim that no operation ever throws past
the caller. -/
theorem checkAccess_throws_cex :
    ProtectionJs.checkAccess cfgSH wNoInput = Except.error JsErr.typeError := by rfl

/-- C7 (amended): the no-throw guarantee fails at two places —
`checkAccess` dereferences the challenge input element unguarded, and
the inline accept handler of `src/protection.js` dereferences the
hard-coded protected-content element unguarded; each throws a
TypeError past the caller when its node is missing (the accept throw
happens before the `accepted` flag is written).  By contrast,
`showSafeHarborModal` logs and aborts on a missing modal in both
variants, and an empty `acceptedAnswers` list makes every submit fail
without raising, leaving the widget locked. -/
theorem dom_guard_behavior (cfg : Config) (w : World) :
    (w.dom.input = none →
      ProtectionJs.checkAccess cfg w = Except.error JsErr.typeError ∧
      Part000.checkAccess cfg w = Except.error JsErr.typeError) ∧
    (∀ sh, w.dom.safeHarbor = some sh → sh.checkboxChecked = true →
      sh.acceptDisabled = false → w.dom.contentAuthorized = none →
      ProtectionJs.stepUI cfg w UIOp.clickAccept = Except.error JsErr.typeError) ∧
    (w.dom.safeHarbor = none →
      ProtectionJs.showSafeHarborModal w
        = { w with events := w.events ++ [Event.consoleError "Safe Harbor modal not found"] } ∧
      Part000.showSafeHarborModal w
        = { w with events := w.events ++ [Event.consoleError "Safe Harbor modal not found"] }) ∧
    (cfg.acceptedAnswers = [] → ∀ s e, w.dom.input = some s → w.dom.errorVisible = some e →
      ∃ w', ProtectionJs.checkAccess cfg w = Except.ok w' ∧ w'.storage = w.storage ∧
        w'.dom.challengeHidden = w.dom.challengeHidden ∧
        w'.dom.contentAuthorized = w.dom.contentAuthorized) := by
  refine ⟨?_, ?_, ?_, ?_⟩
  · intro hni
    constructor <;>
      simp [ProtectionJs.checkAccess, Part000.checkAccess, checkAccessCore, hni]
  · intro sh hsh hc hd hca
    simp [ProtectionJs.stepUI, hsh, hc, hd, hca]
  · intro hsh
    constructor <;>
      simp [ProtectionJs.showSafeHarborModal, Part000.showSafeHarborModal, hsh]
  · intro hempty s e hin herr
    have hf := checkAccess_fail cfg w s e hin herr (by simp [hempty])
    exact ⟨_, hf, rfl, rfl, rfl⟩

/-- C7 witness: the TypeError thrown by a submit with the input element
missing, and the TypeError thrown by a checked accept click with the
protected-content element missing. -/
theorem dom_guard_witness :
    (ProtectionJs.checkAccess cfgSH wNoInput = Except.error JsErr.typeError
      ∧ Part000.checkAccess cfgSH wNoInput = Except.error JsErr.typeError)
    ∧ ProtectionJs.stepUI cfgSH wPendingNoContent UIOp.clickAccept = Except.error JsErr.typeError :=
  ⟨(dom_guard_behavior cfgSH wNoInput).1 rfl,
   (dom_guard_behavior cfgSH wPendingNoContent).2.1 _ rfl rfl rfl rfl⟩

/-! ## Configuration resolver and expiration arithmetic -/

/-- C9: the merge `{ ...defaults, ...userConfig }` lets every
caller-supplied binding — falsy values and unrecognized keys included —
win over the defaults, and every omitted field take its default; the
merge is a total function, so no input raises. -/
theorem init_config_resolution (userConfig : JSObject) (k : String) :
    (∀ v, userConfig.getProp k = some v → (ProtectionJs.init userConfig).getProp k = some v)
    ∧ (userConfig.getProp k = none →
        (ProtectionJs.init userConfig).getProp k = ProtectionJs.defaults.getProp k) := by
  have h := lookupKey_append userConfig ProtectionJs.defaults k
  constructor
  · intro v hv
    simp only [ProtectionJs.init, JSObject.spreadOver, JSObject.getProp] at h hv ⊢
    rw [h, hv]
  · intro hv
    simp only [ProtectionJs.init, JSObject.spreadOver, JSObject.getProp] at h hv ⊢
    rw [h, hv]

/-- C9 witness: a falsy override, an unrecognized preserved field and a
defaulted field on a concrete partial record. -/
theorem init_config_resolution_witness :
    (ProtectionJs.init [("safeHarborDaysValid", JSValue.vNum 0), ("myExtra", JSValue.vStr "x")]).getProp
        "safeHarborDaysValid" = some (JSValue.vNum 0)
    ∧ (ProtectionJs.init [("safeHarborDaysValid", JSValue.vNum 0), ("myExtra", JSValue.vStr "x")]).getProp
        "myExtra" = some (JSValue.vStr "x")
    ∧ (ProtectionJs.init [("safeHarborDaysValid", JSValue.vNum 0), ("myExtra", JSValue.vStr "x")]).getProp
        "sessionKey" = some (JSValue.vStr "multiaxis_protection") :=
  ⟨(init_config_resolution _ "safeHarborDaysValid").1 _ (by decide),
   (init_config_resolution _ "myExtra").1 _ (by decide),
   by rw [(init_config_resolution [("safeHarborDaysValid", JSValue.vNum 0), ("myExtra", JSValue.vStr "x")]
       "sessionKey").2 (by decide)]; decide⟩

/-- C10: the displayed expiration date adds `safeHarborDaysValid` days
only when that value is truthy; every falsy value (0, null, absent,
empty string) falls back to exactly 90 days — although the documented
default of this variant is 30. -/
theorem expiration_fallback (v : JSValue) (n : Int) (base : Int) :
    (jsTruthy v = false → ProtectionJs.safeHarborExpirationDay v base = some (base + 90))
    ∧ (v = JSValue.vNum n → ¬ n = 0 → ProtectionJs.safeHarborExpirationDay v base = some (base + n))
    ∧ JSObject.getProp ProtectionJs.defaults "safeHarborDaysValid" = some (JSValue.vNum 30) := by
  refine ⟨?_, ?_, by decide⟩
  · intro hf
    simp [ProtectionJs.safeHarborExpirationDay, jsOr, hf]
  · rintro rfl hn
    simp [ProtectionJs.safeHarborExpirationDay, jsOr, jsTruthy, bne, hn]

/-- C10 witness: each falsy shape of `safeHarborDaysValid` adds 90 days
and the truthy value 30 adds 30 days. -/
theorem expiration_fallback_witness :
    ProtectionJs.safeHarborExpirationDay (JSValue.vNum 0) 5 = some (5 + 90)
    ∧ ProtectionJs.safeHarborExpirationDay JSValue.vNull 5 = some (5 + 90)
    ∧ ProtectionJs.safeHarborExpirationDay (JSValue.vStr "") 5 = some (5 + 90)
    ∧ ProtectionJs.safeHarborExpirationDay JSValue.vUndefined 5 = some (5 + 90)
    ∧ ProtectionJs.safeHarborExpirationDay (JSValue.vNum 30) 5 = some (5 + 30) :=
  ⟨(expiration_fallback (JSValue.vNum 0) 1 5).1 (by decide),
   (expiration_fallback JSValue.vNull 1 5).1 (by decide),
   (expiration_fallback (JSValue.vStr "") 1 5).1 (by decide),
   (expiration_fallback JSValue.vUndefined 1 5).1 (by decide),
   (expiration_fallback (JSValue.vNum 30) 30 5).2.1 rfl (by decide)⟩

end MultiaxisProtection
